import Mathlib

/-!
Verification development for the auto-mode scheduler of the automaker
repository.  The three HTTP route handlers (start.ts, stop.ts, status.ts
under src/apps/server/src/routes/auto-mode/routes/) are embedded directly
from the source.  The AutoModeService and its per-key auto loop are not
part of the available sources (only their callers are), so they are
modelled from the specification, with doc comments marking every such
definition.
-/

/-- JSON values as produced by the res.json calls of the route handlers.
Response bodies are association lists of field name and value, kept in the
order the source object literals write them. -/
inductive Json where
  | null
  | bool (b : Bool)
  | num (n : Nat)
  | str (s : String)
  | arr (xs : List Json)

/-- A value of projectPath or branchName as read from the request body:
none models an absent or undefined field. -/
abbrev OptStr := Option String

/-- JavaScript truthiness of a string-or-undefined value: undefined and
the empty string are falsy, every other string is truthy.  This is the
test performed by the if-not-projectPath guards of start.ts and stop.ts
and the if-projectPath branch of status.ts. -/
def strTruthy : OptStr → Bool
  | none => false
  | some s => !(s == "")

/-- Embeds the normalization on line 30 of start.ts, line 29 of stop.ts
and line 23 of status.ts: branchName with nullish coalescing to null, so
absent or undefined and explicit null both become null.  The outer none
is an absent field, some none is an explicit null. -/
def normalizeBranchName : Option (Option String) → Option String
  | none => none
  | some b => b

/-- Embeds the worktreeDesc ternary of start.ts and stop.ts: a truthy
branch name yields a worktree description, null or empty yields the main
worktree description. -/
def worktreeDesc : Option String → String
  | none => "main worktree"
  | some b => if b == "" then "main worktree" else "worktree " ++ b

/-- The JSON encoding of a normalized branch name: null or a string. -/
def jsonOfBranch : Option String → Json
  | none => Json.null
  | some b => Json.str b

/-! ## The spec-modelled per-key auto loop

The auto loop implementation is not among the available sources, so its
state and transitions are modelled from the specification, section 3
(Auto-Loop State) and section 4.2 (the per-key state machine). -/

/-- Modelled from the spec: the Auto-Loop State of section 3, one per
Loop Key: isRunning, maxConcurrency, runningFeatureIds (a set of ids,
modelled as a duplicate-free list), cancellationRequested. -/
structure LoopState where
  isRunning : Bool
  maxConcurrency : Nat
  runningFeatureIds : List String
  cancellationRequested : Bool
deriving DecidableEq, Repr

/-- Modelled from the spec: the default concurrency ceiling used when a
start call supplies none.  The spec leaves the numeric default open; the
repository UI tests use 3. -/
def defaultMaxConcurrency : Nat := 3

/-- Modelled from the spec: the initial Auto-Loop state for a key, created
on first start: not running, empty running set. -/
def initLoop : LoopState :=
  { isRunning := false
    maxConcurrency := defaultMaxConcurrency
    runningFeatureIds := []
    cancellationRequested := false }

/-- Modelled from the spec, section 4.2: a start call with a supplied
value validates it to a positive integer which becomes the new ceiling;
otherwise the previously configured or default ceiling is reused. -/
def resolveCeiling (mc : Option Nat) (prev : Nat) : Nat :=
  match mc with
  | some n => if 0 < n then n else prev
  | none => prev

/-- The observable transitions of one key's auto loop, as the spec
describes them: a facade start (with an optional requested ceiling), a
facade stop, a dispatch of one eligible feature by the scheduling tick,
and the completion callback of one in-flight feature. -/
inductive LoopEvent where
  | start (mc : Option Nat)
  | stop
  | dispatch (fid : String)
  | complete (fid : String)
deriving DecidableEq, Repr

/-- Modelled from the spec, sections 4.2 and 5: the per-key transition
function.  Start when running is an idempotent no-op that does not alter
maxConcurrency; start when stopped resolves the ceiling and runs.  Stop
only prevents future dispatches and leaves the running set alone.  A
dispatch happens only while the loop runs, only below the ceiling, and
only for a feature not already running.  A completion callback removes
the feature id from the running set. -/
def loopStep (s : LoopState) : LoopEvent → LoopState
  | .start mc =>
      if s.isRunning then s
      else
        { s with
          isRunning := true
          cancellationRequested := false
          maxConcurrency := resolveCeiling mc s.maxConcurrency }
  | .stop =>
      if s.isRunning then
        { s with isRunning := false, cancellationRequested := true }
      else s
  | .dispatch fid =>
      if s.isRunning
          && s.runningFeatureIds.length < s.maxConcurrency
          && !(s.runningFeatureIds.contains fid) then
        { s with runningFeatureIds := s.runningFeatureIds ++ [fid] }
      else s
  | .complete fid =>
      { s with runningFeatureIds := s.runningFeatureIds.erase fid }

/-- Runs a key's auto loop over a sequence of observable events. -/
def runLoop (s : LoopState) : List LoopEvent → LoopState
  | [] => s
  | e :: es => runLoop (loopStep s e) es

/-- Holds when the next event, if it is a start, does not lower the
ceiling below the number of features still in the running set (the one
way the spec's own operations can shrink the ceiling under load: a
restart, while earlier dispatches drain, with a smaller requested
ceiling). -/
def startGuardOk (s : LoopState) : LoopEvent → Bool
  | .start (some n) =>
      s.isRunning || !(0 < n) || decide (s.runningFeatureIds.length ≤ n)
  | _ => true

/-- Holds when a whole trace keeps the ceiling above the current load at
each start event. -/
def noCeilingDrop (s : LoopState) : List LoopEvent → Bool
  | [] => true
  | e :: es => startGuardOk s e && noCeilingDrop (loopStep s e) es

/-- One loop transition preserves the concurrency bound, provided a start
event does not drop the ceiling below the current load. -/
theorem loopStep_preserves_bound (s : LoopState) (e : LoopEvent)
    (hinv : s.runningFeatureIds.length ≤ s.maxConcurrency)
    (hguard : startGuardOk s e = true) :
    (loopStep s e).runningFeatureIds.length ≤ (loopStep s e).maxConcurrency := by
  cases e with
  | start mc =>
      cases mc with
      | none =>
          simp only [loopStep, resolveCeiling]
          split <;> simpa using hinv
      | some n =>
          simp only [loopStep, resolveCeiling]
          split
          · exact hinv
          · rename_i hrun
            simp only [startGuardOk, hrun, Bool.false_or, Bool.or_eq_true,
              Bool.not_eq_true', decide_eq_true_eq,
              decide_eq_false_iff_not] at hguard
            simp only []
            split
            · rename_i hn
              rcases hguard with h | h
              · omega
              · exact h
            · exact hinv
  | stop =>
      simp only [loopStep]
      split <;> simpa using hinv
  | dispatch fid =>
      simp only [loopStep]
      split
      · rename_i hc
        simp only [Bool.and_eq_true, decide_eq_true_eq, Bool.not_eq_true'] at hc
        simp only [List.length_append, List.length_cons, List.length_nil]
        omega
      · exact hinv
  | complete fid =>
      simp only [loopStep]
      exact le_trans (List.Sublist.length_le (List.erase_sublist _ _)) hinv

/-- C1 (amended): along every event trace in which no start call lowers
the ceiling below the number of features still draining, the size of the
running-feature set never exceeds the ceiling. -/
theorem runLoop_concurrency_bound (s : LoopState) (es : List LoopEvent)
    (hinv : s.runningFeatureIds.length ≤ s.maxConcurrency)
    (hnd : noCeilingDrop s es = true) :
    (runLoop s es).runningFeatureIds.length ≤ (runLoop s es).maxConcurrency := by
  induction es generalizing s with
  | nil => exact hinv
  | cons e es ih =>
      rw [noCeilingDrop, Bool.and_eq_true] at hnd
      rw [runLoop]
      exact ih (loopStep s e) (loopStep_preserves_bound s e hinv hnd.1) hnd.2

/-- Witness for the step lemma on a concrete state and event. -/
theorem loopStep_preserves_bound_witness :
    (loopStep ⟨true, 2, ["a"], false⟩
        (LoopEvent.dispatch "b")).runningFeatureIds.length
      ≤ (loopStep ⟨true, 2, ["a"], false⟩
        (LoopEvent.dispatch "b")).maxConcurrency :=
  loopStep_preserves_bound ⟨true, 2, ["a"], false⟩
    (LoopEvent.dispatch "b") (by decide) (by decide)

/-- Witness for the amended C1: a concrete ceiling-respecting trace from
the initial state stays within bounds. -/
theorem runLoop_concurrency_bound_witness :
    (runLoop initLoop [LoopEvent.start (some 2), LoopEvent.dispatch "a",
        LoopEvent.dispatch "b", LoopEvent.complete "a"]).runningFeatureIds.length
      ≤ (runLoop initLoop [LoopEvent.start (some 2), LoopEvent.dispatch "a",
        LoopEvent.dispatch "b", LoopEvent.complete "a"]).maxConcurrency :=
  runLoop_concurrency_bound initLoop
    [LoopEvent.start (some 2), LoopEvent.dispatch "a",
      LoopEvent.dispatch "b", LoopEvent.complete "a"]
    (by decide) (by decide)

/-- C1 as literally stated is refutable in the spec model: stopping with
two features still draining and restarting with a requested ceiling of 1
leaves 2 running features above a ceiling of 1. -/
theorem runLoop_concurrency_counterexample :
    (runLoop initLoop [LoopEvent.start (some 2), LoopEvent.dispatch "a",
        LoopEvent.dispatch "b", LoopEvent.stop,
        LoopEvent.start (some 1)]).maxConcurrency
      < (runLoop initLoop [LoopEvent.start (some 2), LoopEvent.dispatch "a",
        LoopEvent.dispatch "b", LoopEvent.stop,
        LoopEvent.start (some 1)]).runningFeatureIds.length := by decide

/-! ## The HTTP layer

Request bodies, responses and the three route handlers, embedded from
start.ts, stop.ts and status.ts.  An Express res.json without res.status
sends status 200; a response body is the ordered field list of the object
literal passed to res.json.  The AutoModeService the handlers call is kept
abstract: a record of state-passing methods, each of which may either
return a value or throw (Except.error carries the thrown message). -/

/-- An HTTP response: status code and ordered JSON body fields. -/
structure HttpResponse where
  status : Nat
  body : List (String × Json)

/-- The record returned by AutoModeService.getStatusForProject, with the
fields the status route reads (spec section 4.3 statusForProject). -/
structure ProjectStatus where
  isAutoLoopRunning : Bool
  runningFeatures : List String
  runningCount : Nat
  maxConcurrency : Nat
deriving DecidableEq, Repr

/-- One invocation of an AutoModeService method, with its arguments, as
recorded by the handler embeddings in call order. -/
inductive ServiceCall where
  | isAutoLoopRunningForProject (pp : String) (nb : Option String)
  | startAutoLoopForProject (pp : String) (nb : Option String) (mc : Option Nat)
  | stopAutoLoopForProject (pp : String) (nb : Option String)
  | getStatusForProject (pp : String) (nb : Option String)
  | getStatus
  | getActiveAutoLoopProjects
  | getActiveAutoLoopWorktrees
deriving DecidableEq, Repr

/-- The interface of AutoModeService as the three routes use it.  The
implementation is not among the available sources, so the handlers are
verified against an arbitrary state-passing instance: each method takes
the service state and returns either a result or a thrown message,
together with the successor state. -/
structure AutoModeService (σ : Type) where
  isAutoLoopRunningForProject : σ → String → Option String → Except String Bool × σ
  startAutoLoopForProject : σ → String → Option String → Option Nat → Except String Nat × σ
  stopAutoLoopForProject : σ → String → Option String → Except String Nat × σ
  getStatusForProject : σ → String → Option String → Except String ProjectStatus × σ
  getStatus : σ → Except String (List (String × Json)) × σ
  getActiveAutoLoopProjects : σ → Except String (List String) × σ
  getActiveAutoLoopWorktrees : σ → Except String (List Json) × σ

/-- What a handler run produces: the response, the service calls it made
in order, and the final service state. -/
structure HandlerResult (σ : Type) where
  resp : HttpResponse
  calls : List ServiceCall
  state : σ

/-- Request body of POST /start. -/
structure StartBody where
  projectPath : Option String
  branchName : Option (Option String)
  maxConcurrency : Option Nat

/-- Request body of POST /stop. -/
structure StopBody where
  projectPath : Option String
  branchName : Option (Option String)

/-- Request body of POST /status. -/
structure StatusBody where
  projectPath : Option String
  branchName : Option (Option String)

/-- The 500 response produced by the catch blocks of all three routes. -/
def errResp (e : String) : HttpResponse :=
  ⟨500, [("success", Json.bool false), ("error", Json.str e)]⟩

/-- The 400 response produced by the missing-projectPath guards of
start.ts and stop.ts. -/
def badRequestResp : HttpResponse :=
  ⟨400, [("success", Json.bool false), ("error", Json.str "projectPath is required")]⟩

/-- Embeds createStartHandler of start.ts: reject a falsy projectPath
with 400, normalize branchName, answer alreadyRunning when the key's loop
is running, otherwise start the loop and report the resolved concurrency;
any thrown error becomes a 500. -/
def createStartHandler {σ : Type} (svc : AutoModeService σ) (body : StartBody)
    (s0 : σ) : HandlerResult σ :=
  match body.projectPath with
  | none => ⟨badRequestResp, [], s0⟩
  | some pp =>
      if pp == "" then ⟨badRequestResp, [], s0⟩
      else
        let nb := normalizeBranchName body.branchName
        match svc.isAutoLoopRunningForProject s0 pp nb with
        | (Except.error e, s1) =>
            ⟨errResp e, [ServiceCall.isAutoLoopRunningForProject pp nb], s1⟩
        | (Except.ok true, s1) =>
            ⟨⟨200, [("success", Json.bool true),
                ("message", Json.str ("Auto mode is already running for "
                  ++ worktreeDesc nb)),
                ("alreadyRunning", Json.bool true),
                ("branchName", jsonOfBranch nb)]⟩,
              [ServiceCall.isAutoLoopRunningForProject pp nb], s1⟩
        | (Except.ok false, s1) =>
            match svc.startAutoLoopForProject s1 pp nb body.maxConcurrency with
            | (Except.error e, s2) =>
                ⟨errResp e,
                  [ServiceCall.isAutoLoopRunningForProject pp nb,
                    ServiceCall.startAutoLoopForProject pp nb body.maxConcurrency],
                  s2⟩
            | (Except.ok n, s2) =>
                ⟨⟨200, [("success", Json.bool true),
                    ("message", Json.str ("Auto mode started with max "
                      ++ toString n ++ " concurrent features")),
                    ("branchName", jsonOfBranch nb)]⟩,
                  [ServiceCall.isAutoLoopRunningForProject pp nb,
                    ServiceCall.startAutoLoopForProject pp nb body.maxConcurrency],
                  s2⟩

/-- Embeds createStopHandler of stop.ts: reject a falsy projectPath with
400, normalize branchName, answer wasRunning false when the key's loop is
not running, otherwise stop the loop and report how many features are
still running; any thrown error becomes a 500. -/
def createStopHandler {σ : Type} (svc : AutoModeService σ) (body : StopBody)
    (s0 : σ) : HandlerResult σ :=
  match body.projectPath with
  | none => ⟨badRequestResp, [], s0⟩
  | some pp =>
      if pp == "" then ⟨badRequestResp, [], s0⟩
      else
        let nb := normalizeBranchName body.branchName
        match svc.isAutoLoopRunningForProject s0 pp nb with
        | (Except.error e, s1) =>
            ⟨errResp e, [ServiceCall.isAutoLoopRunningForProject pp nb], s1⟩
        | (Except.ok false, s1) =>
            ⟨⟨200, [("success", Json.bool true),
                ("message", Json.str ("Auto mode is not running for "
                  ++ worktreeDesc nb)),
                ("wasRunning", Json.bool false),
                ("branchName", jsonOfBranch nb)]⟩,
              [ServiceCall.isAutoLoopRunningForProject pp nb], s1⟩
        | (Except.ok true, s1) =>
            match svc.stopAutoLoopForProject s1 pp nb with
            | (Except.error e, s2) =>
                ⟨errResp e,
                  [ServiceCall.isAutoLoopRunningForProject pp nb,
                    ServiceCall.stopAutoLoopForProject pp nb], s2⟩
            | (Except.ok n, s2) =>
                ⟨⟨200, [("success", Json.bool true),
                    ("message", Json.str "Auto mode stopped"),
                    ("runningFeaturesCount", Json.num n),
                    ("branchName", jsonOfBranch nb)]⟩,
                  [ServiceCall.isAutoLoopRunningForProject pp nb,
                    ServiceCall.stopAutoLoopForProject pp nb], s2⟩

/-- The global branch of createStatusHandler in status.ts: getStatus with
its fields spread into the body, then the active project and worktree
lists.  A duplicate key produced by the spread would, in JavaScript,
collapse with the later value winning; the embedding keeps the fields in
written order. -/
def statusGlobalFrom {σ : Type} (svc : AutoModeService σ) (s0 : σ) :
    HandlerResult σ :=
  match svc.getStatus s0 with
  | (Except.error e, s1) => ⟨errResp e, [ServiceCall.getStatus], s1⟩
  | (Except.ok gs, s1) =>
      match svc.getActiveAutoLoopProjects s1 with
      | (Except.error e, s2) =>
          ⟨errResp e, [ServiceCall.getStatus,
            ServiceCall.getActiveAutoLoopProjects], s2⟩
      | (Except.ok aps, s2) =>
          match svc.getActiveAutoLoopWorktrees s2 with
          | (Except.error e, s3) =>
              ⟨errResp e, [ServiceCall.getStatus,
                ServiceCall.getActiveAutoLoopProjects,
                ServiceCall.getActiveAutoLoopWorktrees], s3⟩
          | (Except.ok awt, s3) =>
              ⟨⟨200, ("success", Json.bool true) :: gs
                  ++ [("activeAutoLoopProjects", Json.arr (aps.map Json.str)),
                    ("activeAutoLoopWorktrees", Json.arr awt)]⟩,
                [ServiceCall.getStatus,
                  ServiceCall.getActiveAutoLoopProjects,
                  ServiceCall.getActiveAutoLoopWorktrees], s3⟩

/-- Embeds createStatusHandler of status.ts: a truthy projectPath selects
the per-project view built from getStatusForProject, with isRunning
computed as runningCount greater than zero; otherwise the global view;
any thrown error becomes a 500. -/
def createStatusHandler {σ : Type} (svc : AutoModeService σ) (body : StatusBody)
    (s0 : σ) : HandlerResult σ :=
  match body.projectPath with
  | none => statusGlobalFrom svc s0
  | some pp =>
      if pp == "" then statusGlobalFrom svc s0
      else
        let nb := normalizeBranchName body.branchName
        match svc.getStatusForProject s0 pp nb with
        | (Except.error e, s1) =>
            ⟨errResp e, [ServiceCall.getStatusForProject pp nb], s1⟩
        | (Except.ok st, s1) =>
            ⟨⟨200, [("success", Json.bool true),
                ("isRunning", Json.bool (decide (0 < st.runningCount))),
                ("isAutoLoopRunning", Json.bool st.isAutoLoopRunning),
                ("runningFeatures", Json.arr (st.runningFeatures.map Json.str)),
                ("runningCount", Json.num st.runningCount),
                ("maxConcurrency", Json.num st.maxConcurrency),
                ("projectPath", Json.str pp),
                ("branchName", jsonOfBranch nb)]⟩,
              [ServiceCall.getStatusForProject pp nb], s1⟩

/-! ## The spec-modelled service registry

A concrete AutoModeService instance over the per-key registry state,
modelled from spec sections 4.2, 4.3 and 5: one LoopState per Loop Key,
reads leave the registry unchanged, start and stop step exactly the
addressed key's loop, and no method throws. -/

/-- A Loop Key: projectPath and normalized branch name (spec section 3). -/
abbrev LoopKey := String × Option String

/-- The registry state: the loop state of every key seen so far. -/
abbrev SvcState := List (LoopKey × LoopState)

/-- Replaces a key's loop state, appending the key when absent. -/
def svcSet : SvcState → LoopKey → LoopState → SvcState
  | [], k, l => [(k, l)]
  | (k0, l0) :: rest, k, l =>
      if k0 == k then (k0, l) :: rest else (k0, l0) :: svcSet rest k l

namespace SpecModel

/-- Modelled from the spec: the loop state of a key, initial if the key
was never started. -/
def loopFor (reg : SvcState) (pp : String) (nb : Option String) : LoopState :=
  (List.lookup (pp, nb) reg).getD initLoop

/-- Modelled from the spec: isRunning of the facade, false for a key with
no loop. -/
def isRunningFor (reg : SvcState) (pp : String) (nb : Option String) : Bool :=
  (loopFor reg pp nb).isRunning

/-- Modelled from the spec: the maxConcurrency currently configured for a
key. -/
def maxConcurrencyFor (reg : SvcState) (pp : String) (nb : Option String) : Nat :=
  (loopFor reg pp nb).maxConcurrency

/-- Modelled from the spec: start steps the key's loop with a start event
and returns the resolved ceiling. -/
def startFor (reg : SvcState) (pp : String) (nb : Option String)
    (mc : Option Nat) : Nat × SvcState :=
  let l2 := loopStep (loopFor reg pp nb) (LoopEvent.start mc)
  (l2.maxConcurrency, svcSet reg (pp, nb) l2)

/-- Modelled from the spec: stop steps the key's loop with a stop event
and returns how many features are still in the running set. -/
def stopFor (reg : SvcState) (pp : String) (nb : Option String) :
    Nat × SvcState :=
  let l := loopFor reg pp nb
  ((loopStep l LoopEvent.stop).runningFeatureIds.length,
    svcSet reg (pp, nb) (loopStep l LoopEvent.stop))

/-- Modelled from the spec: statusForProject reads the key's loop. -/
def statusFor (reg : SvcState) (pp : String) (nb : Option String) :
    ProjectStatus :=
  let l := loopFor reg pp nb
  ⟨l.isRunning, l.runningFeatureIds, l.runningFeatureIds.length,
    l.maxConcurrency⟩

/-- Modelled from the spec: the global aggregate across all keys. -/
def globalStatus (reg : SvcState) : List (String × Json) :=
  [("isRunning", Json.bool (reg.any (fun p => 0 < p.2.runningFeatureIds.length))),
    ("runningFeatures",
      Json.arr ((reg.map (fun p => p.2.runningFeatureIds)).flatten.map Json.str)),
    ("runningCount",
      Json.num ((reg.map (fun p => p.2.runningFeatureIds.length)).sum))]

/-- Modelled from the spec: the distinct project paths of keys whose loop
is running. -/
def activeProjects (reg : SvcState) : List String :=
  ((reg.filter (fun p => p.2.isRunning)).map (fun p => p.1.1)).eraseDups

/-- Modelled from the spec: the distinct keys whose loop is running, as
the JSON entries of activeAutoLoopWorktrees. -/
def activeWorktrees (reg : SvcState) : List Json :=
  (reg.filter (fun p => p.2.isRunning)).map
    (fun p => Json.arr [Json.str p.1.1, jsonOfBranch p.1.2])

end SpecModel

/-- Modelled from the spec: the AutoModeService over the registry state.
No method of the model throws. -/
def specService : AutoModeService SvcState where
  isAutoLoopRunningForProject reg pp nb :=
    (Except.ok (SpecModel.isRunningFor reg pp nb), reg)
  startAutoLoopForProject reg pp nb mc :=
    ((SpecModel.startFor reg pp nb mc).map Except.ok id : Except String Nat × SvcState)
  stopAutoLoopForProject reg pp nb :=
    ((SpecModel.stopFor reg pp nb).map Except.ok id : Except String Nat × SvcState)
  getStatusForProject reg pp nb :=
    (Except.ok (SpecModel.statusFor reg pp nb), reg)
  getStatus reg := (Except.ok (SpecModel.globalStatus reg), reg)
  getActiveAutoLoopProjects reg := (Except.ok (SpecModel.activeProjects reg), reg)
  getActiveAutoLoopWorktrees reg := (Except.ok (SpecModel.activeWorktrees reg), reg)

/-- A service instance whose every method throws, exercising the catch
blocks of the routes. -/
def throwingService : AutoModeService Unit where
  isAutoLoopRunningForProject _ _ _ := (Except.error "boom", ())
  startAutoLoopForProject _ _ _ _ := (Except.error "boom", ())
  stopAutoLoopForProject _ _ _ := (Except.error "boom", ())
  getStatusForProject _ _ _ := (Except.error "boom", ())
  getStatus _ := (Except.error "boom", ())
  getActiveAutoLoopProjects _ := (Except.error "boom", ())
  getActiveAutoLoopWorktrees _ := (Except.error "boom", ())

/-! ## Claims about the routes -/

/-- A concrete registry with one running loop holding two in-flight
features, used by the witnesses. -/
def sampleRegistry : SvcState :=
  [(("p", none), ⟨true, 3, ["f1", "f2"], false⟩)]

/-- C2: a start request for a key whose auto loop is already running gets
a 200 response with success true and alreadyRunning true, its only
service call is the running probe (so startAutoLoopForProject is never
invoked), and the registry, in particular the key's maxConcurrency, is
unchanged. -/
theorem start_already_running_idempotent (reg : SvcState) (pp : String)
    (bn : Option (Option String)) (mc : Option Nat)
    (hpp : pp ≠ "")
    (hrun : SpecModel.isRunningFor reg pp (normalizeBranchName bn) = true) :
    createStartHandler specService ⟨some pp, bn, mc⟩ reg =
      ⟨⟨200, [("success", Json.bool true),
          ("message", Json.str ("Auto mode is already running for "
            ++ worktreeDesc (normalizeBranchName bn))),
          ("alreadyRunning", Json.bool true),
          ("branchName", jsonOfBranch (normalizeBranchName bn))]⟩,
        [ServiceCall.isAutoLoopRunningForProject pp (normalizeBranchName bn)],
        reg⟩ ∧
    SpecModel.maxConcurrencyFor
        (createStartHandler specService ⟨some pp, bn, mc⟩ reg).state pp
        (normalizeBranchName bn)
      = SpecModel.maxConcurrencyFor reg pp (normalizeBranchName bn) := by
  have hb : (pp == "") = false := by simpa using hpp
  have h1 : createStartHandler specService ⟨some pp, bn, mc⟩ reg =
      ⟨⟨200, [("success", Json.bool true),
          ("message", Json.str ("Auto mode is already running for "
            ++ worktreeDesc (normalizeBranchName bn))),
          ("alreadyRunning", Json.bool true),
          ("branchName", jsonOfBranch (normalizeBranchName bn))]⟩,
        [ServiceCall.isAutoLoopRunningForProject pp (normalizeBranchName bn)],
        reg⟩ := by
    simp [createStartHandler, specService, hb, hrun]
  exact ⟨h1, by rw [h1]⟩

/-- Witness for C2 at a concrete running registry. -/
theorem start_already_running_witness :
    createStartHandler specService ⟨some "p", none, some 5⟩ sampleRegistry =
      ⟨⟨200, [("success", Json.bool true),
          ("message", Json.str ("Auto mode is already running for "
            ++ worktreeDesc (normalizeBranchName none))),
          ("alreadyRunning", Json.bool true),
          ("branchName", jsonOfBranch (normalizeBranchName none))]⟩,
        [ServiceCall.isAutoLoopRunningForProject "p" (normalizeBranchName none)],
        sampleRegistry⟩ ∧
    SpecModel.maxConcurrencyFor
        (createStartHandler specService ⟨some "p", none, some 5⟩ sampleRegistry).state
        "p" (normalizeBranchName none)
      = SpecModel.maxConcurrencyFor sampleRegistry "p" (normalizeBranchName none) :=
  start_already_running_idempotent sampleRegistry "p" none (some 5)
    (by decide) (by decide)

/-- C3: a stop request for a key with no running auto loop gets a 200
response with success true and wasRunning false, its only service call is
the running probe (so stopAutoLoopForProject is never invoked), and the
registry state is unchanged. -/
theorem stop_not_running_idempotent (reg : SvcState) (pp : String)
    (bn : Option (Option String))
    (hpp : pp ≠ "")
    (hrun : SpecModel.isRunningFor reg pp (normalizeBranchName bn) = false) :
    createStopHandler specService ⟨some pp, bn⟩ reg =
      ⟨⟨200, [("success", Json.bool true),
          ("message", Json.str ("Auto mode is not running for "
            ++ worktreeDesc (normalizeBranchName bn))),
          ("wasRunning", Json.bool false),
          ("branchName", jsonOfBranch (normalizeBranchName bn))]⟩,
        [ServiceCall.isAutoLoopRunningForProject pp (normalizeBranchName bn)],
        reg⟩ := by
  have hb : (pp == "") = false := by simpa using hpp
  simp [createStopHandler, specService, hb, hrun]

/-- Witness for C3 at a concrete registry whose only loop is stopped. -/
theorem stop_not_running_witness :
    createStopHandler specService ⟨some "q", some (some "dev")⟩ sampleRegistry =
      ⟨⟨200, [("success", Json.bool true),
          ("message", Json.str ("Auto mode is not running for "
            ++ worktreeDesc (normalizeBranchName (some (some "dev"))))),
          ("wasRunning", Json.bool false),
          ("branchName", jsonOfBranch (normalizeBranchName (some (some "dev"))))]⟩,
        [ServiceCall.isAutoLoopRunningForProject "q"
          (normalizeBranchName (some (some "dev")))],
        sampleRegistry⟩ :=
  stop_not_running_idempotent sampleRegistry "q" (some (some "dev"))
    (by decide) (by decide)

/-- C4: a start or stop request whose projectPath is absent, undefined or
the empty string is answered 400 with success false and the message that
projectPath is required, no service method is invoked, and the service
state is untouched.  This holds for every service instance. -/
theorem missing_projectPath_rejected (σ : Type) (svc : AutoModeService σ)
    (s0 : σ) (pb : Option String) (bn : Option (Option String))
    (mc : Option Nat)
    (h : pb = none ∨ pb = some "") :
    createStartHandler svc ⟨pb, bn, mc⟩ s0 = ⟨badRequestResp, [], s0⟩ ∧
    createStopHandler svc ⟨pb, bn⟩ s0 = ⟨badRequestResp, [], s0⟩ := by
  rcases h with h | h <;> subst h <;>
    exact ⟨by simp [createStartHandler], by simp [createStopHandler]⟩

/-- Witness for C4 with an empty projectPath against the model service. -/
theorem missing_projectPath_rejected_witness :
    createStartHandler specService ⟨some "", none, some 4⟩ sampleRegistry
      = ⟨badRequestResp, [], sampleRegistry⟩ ∧
    createStopHandler specService ⟨some "", none⟩ sampleRegistry
      = ⟨badRequestResp, [], sampleRegistry⟩ :=
  missing_projectPath_rejected SvcState specService sampleRegistry
    (some "") none (some 4) (Or.inr rfl)

/-- C5: for each of the three handlers, a request with branchName absent
produces exactly the same result (response, service calls and final
state) as the identical request with branchName explicitly null, and each
per-key 200 response echoes branchName as null.  This holds for every
service instance. -/
theorem branchName_absent_eq_null (σ : Type) (svc : AutoModeService σ)
    (s0 : σ) (pb : Option String) (mc : Option Nat) :
    createStartHandler svc ⟨pb, none, mc⟩ s0
      = createStartHandler svc ⟨pb, some none, mc⟩ s0 ∧
    createStopHandler svc ⟨pb, none⟩ s0
      = createStopHandler svc ⟨pb, some none⟩ s0 ∧
    createStatusHandler svc ⟨pb, none⟩ s0
      = createStatusHandler svc ⟨pb, some none⟩ s0 ∧
    ((createStartHandler svc ⟨pb, none, mc⟩ s0).resp.status = 200 →
      (createStartHandler svc ⟨pb, none, mc⟩ s0).resp.body.lookup "branchName"
        = some Json.null) ∧
    ((createStopHandler svc ⟨pb, none⟩ s0).resp.status = 200 →
      (createStopHandler svc ⟨pb, none⟩ s0).resp.body.lookup "branchName"
        = some Json.null) ∧
    (∀ pp : String, pb = some pp → pp ≠ "" →
      (createStatusHandler svc ⟨pb, none⟩ s0).resp.status = 200 →
      (createStatusHandler svc ⟨pb, none⟩ s0).resp.body.lookup "branchName"
        = some Json.null) := by
  refine ⟨rfl, rfl, rfl, ?_, ?_, ?_⟩
  · cases pb with
    | none => intro h; simp [createStartHandler, badRequestResp] at h
    | some pp =>
        by_cases hpp : pp = ""
        · subst hpp
          intro h
          simp [createStartHandler, badRequestResp] at h
        · have hb : (pp == "") = false := by simpa using hpp
          rcases hsvc : svc.isAutoLoopRunningForProject s0 pp none with ⟨e | b, s1⟩
          · intro h
            simp [createStartHandler, hb, normalizeBranchName, hsvc, errResp] at h
          · cases b
            · rcases hs2 : svc.startAutoLoopForProject s1 pp none mc with ⟨e2 | n, s2⟩
              · intro h
                simp [createStartHandler, hb, normalizeBranchName, hsvc, hs2,
                  errResp] at h
              · intro _
                simp [createStartHandler, hb, normalizeBranchName, hsvc, hs2,
                  List.lookup, jsonOfBranch]
            · intro _
              simp [createStartHandler, hb, normalizeBranchName, hsvc,
                List.lookup, jsonOfBranch]
  · cases pb with
    | none => intro h; simp [createStopHandler, badRequestResp] at h
    | some pp =>
        by_cases hpp : pp = ""
        · subst hpp
          intro h
          simp [createStopHandler, badRequestResp] at h
        · have hb : (pp == "") = false := by simpa using hpp
          rcases hsvc : svc.isAutoLoopRunningForProject s0 pp none with ⟨e | b, s1⟩
          · intro h
            simp [createStopHandler, hb, normalizeBranchName, hsvc, errResp] at h
          · cases b
            · intro _
              simp [createStopHandler, hb, normalizeBranchName, hsvc,
                List.lookup, jsonOfBranch]
            · rcases hs2 : svc.stopAutoLoopForProject s1 pp none with ⟨e2 | n, s2⟩
              · intro h
                simp [createStopHandler, hb, normalizeBranchName, hsvc, hs2,
                  errResp] at h
              · intro _
                simp [createStopHandler, hb, normalizeBranchName, hsvc, hs2,
                  List.lookup, jsonOfBranch]
  · intro pp hpb hpp
    subst hpb
    have hb : (pp == "") = false := by simpa using hpp
    rcases hsvc : svc.getStatusForProject s0 pp none with ⟨e | st, s1⟩
    · intro h
      simp [createStatusHandler, hb, normalizeBranchName, hsvc, errResp] at h
    · intro _
      simp [createStatusHandler, hb, normalizeBranchName, hsvc,
        List.lookup, jsonOfBranch]

/-- Witness for C5: the equivalence and the null echo at a concrete
request against the model service. -/
theorem branchName_absent_eq_null_witness :
    createStartHandler specService ⟨some "p", none, some 2⟩ sampleRegistry
      = createStartHandler specService ⟨some "p", some none, some 2⟩ sampleRegistry ∧
    (createStatusHandler specService ⟨some "p", none⟩ sampleRegistry).resp.body.lookup
        "branchName" = some Json.null :=
  ⟨(branchName_absent_eq_null SvcState specService sampleRegistry
      (some "p") (some 2)).1,
    (branchName_absent_eq_null SvcState specService sampleRegistry
      (some "p") (some 2)).2.2.2.2.2 "p" rfl (by decide) (by decide)⟩

/-- C6: whichever service method a route invokes, a thrown error is
caught and answered as a 500 whose body carries success false and the
error message; and every handler run ends in a definite 200, 400 or 500
response, so no exception reaches the transport layer.  This holds for
every service instance. -/
theorem routes_catch_service_errors :
    (∀ (σ : Type) (svc : AutoModeService σ) (s0 : σ) (pp : String)
        (bn : Option (Option String)) (mc : Option Nat) (e : String) (s1 : σ),
      pp ≠ "" →
      svc.isAutoLoopRunningForProject s0 pp (normalizeBranchName bn)
        = (Except.error e, s1) →
      (createStartHandler svc ⟨some pp, bn, mc⟩ s0).resp = errResp e) ∧
    (∀ (σ : Type) (svc : AutoModeService σ) (s0 : σ) (pp : String)
        (bn : Option (Option String)) (mc : Option Nat) (e : String) (s1 s2 : σ),
      pp ≠ "" →
      svc.isAutoLoopRunningForProject s0 pp (normalizeBranchName bn)
        = (Except.ok false, s1) →
      svc.startAutoLoopForProject s1 pp (normalizeBranchName bn) mc
        = (Except.error e, s2) →
      (createStartHandler svc ⟨some pp, bn, mc⟩ s0).resp = errResp e) ∧
    (∀ (σ : Type) (svc : AutoModeService σ) (s0 : σ) (pp : String)
        (bn : Option (Option String)) (e : String) (s1 : σ),
      pp ≠ "" →
      svc.isAutoLoopRunningForProject s0 pp (normalizeBranchName bn)
        = (Except.error e, s1) →
      (createStopHandler svc ⟨some pp, bn⟩ s0).resp = errResp e) ∧
    (∀ (σ : Type) (svc : AutoModeService σ) (s0 : σ) (pp : String)
        (bn : Option (Option String)) (e : String) (s1 s2 : σ),
      pp ≠ "" →
      svc.isAutoLoopRunningForProject s0 pp (normalizeBranchName bn)
        = (Except.ok true, s1) →
      svc.stopAutoLoopForProject s1 pp (normalizeBranchName bn)
        = (Except.error e, s2) →
      (createStopHandler svc ⟨some pp, bn⟩ s0).resp = errResp e) ∧
    (∀ (σ : Type) (svc : AutoModeService σ) (s0 : σ) (pp : String)
        (bn : Option (Option String)) (e : String) (s1 : σ),
      pp ≠ "" →
      svc.getStatusForProject s0 pp (normalizeBranchName bn)
        = (Except.error e, s1) →
      (createStatusHandler svc ⟨some pp, bn⟩ s0).resp = errResp e) ∧
    (∀ (σ : Type) (svc : AutoModeService σ) (s0 : σ)
        (bn : Option (Option String)) (e : String) (s1 : σ),
      svc.getStatus s0 = (Except.error e, s1) →
      (createStatusHandler svc ⟨none, bn⟩ s0).resp = errResp e) ∧
    (∀ (σ : Type) (svc : AutoModeService σ) (s0 : σ)
        (bn : Option (Option String)) (gs : List (String × Json))
        (e : String) (s1 s2 : σ),
      svc.getStatus s0 = (Except.ok gs, s1) →
      svc.getActiveAutoLoopProjects s1 = (Except.error e, s2) →
      (createStatusHandler svc ⟨none, bn⟩ s0).resp = errResp e) ∧
    (∀ (σ : Type) (svc : AutoModeService σ) (s0 : σ)
        (bn : Option (Option String)) (gs : List (String × Json))
        (aps : List String) (e : String) (s1 s2 s3 : σ),
      svc.getStatus s0 = (Except.ok gs, s1) →
      svc.getActiveAutoLoopProjects s1 = (Except.ok aps, s2) →
      svc.getActiveAutoLoopWorktrees s2 = (Except.error e, s3) →
      (createStatusHandler svc ⟨none, bn⟩ s0).resp = errResp e) ∧
    (∀ (σ : Type) (svc : AutoModeService σ) (s0 : σ) (body : StartBody),
      (createStartHandler svc body s0).resp.status = 200 ∨
      (createStartHandler svc body s0).resp.status = 400 ∨
      (createStartHandler svc body s0).resp.status = 500) ∧
    (∀ (σ : Type) (svc : AutoModeService σ) (s0 : σ) (body : StopBody),
      (createStopHandler svc body s0).resp.status = 200 ∨
      (createStopHandler svc body s0).resp.status = 400 ∨
      (createStopHandler svc body s0).resp.status = 500) ∧
    (∀ (σ : Type) (svc : AutoModeService σ) (s0 : σ) (body : StatusBody),
      (createStatusHandler svc body s0).resp.status = 200 ∨
      (createStatusHandler svc body s0).resp.status = 400 ∨
      (createStatusHandler svc body s0).resp.status = 500) := by
  have hglobal : ∀ (σ : Type) (svc : AutoModeService σ) (s0 : σ),
      (statusGlobalFrom svc s0).resp.status = 200 ∨
      (statusGlobalFrom svc s0).resp.status = 400 ∨
      (statusGlobalFrom svc s0).resp.status = 500 := by
    intro σ svc s0
    rcases h1 : svc.getStatus s0 with ⟨e1 | gs, s1⟩
    · simp [statusGlobalFrom, h1, errResp]
    · rcases h2 : svc.getActiveAutoLoopProjects s1 with ⟨e2 | aps, s2⟩
      · simp [statusGlobalFrom, h1, h2, errResp]
      · rcases h3 : svc.getActiveAutoLoopWorktrees s2 with ⟨e3 | awt, s3⟩
        · simp [statusGlobalFrom, h1, h2, h3, errResp]
        · simp [statusGlobalFrom, h1, h2, h3]
  refine ⟨?_, ?_, ?_, ?_, ?_, ?_, ?_, ?_, ?_, ?_, ?_⟩
  · intro σ svc s0 pp bn mc e s1 hpp h
    have hb : (pp == "") = false := by simpa using hpp
    simp [createStartHandler, hb, h]
  · intro σ svc s0 pp bn mc e s1 s2 hpp h1 h2
    have hb : (pp == "") = false := by simpa using hpp
    simp [createStartHandler, hb, h1, h2]
  · intro σ svc s0 pp bn e s1 hpp h
    have hb : (pp == "") = false := by simpa using hpp
    simp [createStopHandler, hb, h]
  · intro σ svc s0 pp bn e s1 s2 hpp h1 h2
    have hb : (pp == "") = false := by simpa using hpp
    simp [createStopHandler, hb, h1, h2]
  · intro σ svc s0 pp bn e s1 hpp h
    have hb : (pp == "") = false := by simpa using hpp
    simp [createStatusHandler, hb, h]
  · intro σ svc s0 bn e s1 h
    simp [createStatusHandler, statusGlobalFrom, h]
  · intro σ svc s0 bn gs e s1 s2 h1 h2
    simp [createStatusHandler, statusGlobalFrom, h1, h2]
  · intro σ svc s0 bn gs aps e s1 s2 s3 h1 h2 h3
    simp [createStatusHandler, statusGlobalFrom, h1, h2, h3]
  · intro σ svc s0 body
    rcases body with ⟨pb, bn, mc⟩
    cases pb with
    | none => simp [createStartHandler, badRequestResp]
    | some pp =>
        by_cases hpp : pp = ""
        · subst hpp
          simp [createStartHandler, badRequestResp]
        · have hb : (pp == "") = false := by simpa using hpp
          rcases hsvc : svc.isAutoLoopRunningForProject s0 pp
              (normalizeBranchName bn) with ⟨e | b, s1⟩
          · simp [createStartHandler, hb, hsvc, errResp]
          · cases b
            · rcases hs2 : svc.startAutoLoopForProject s1 pp
                  (normalizeBranchName bn) mc with ⟨e2 | n, s2⟩
              · simp [createStartHandler, hb, hsvc, hs2, errResp]
              · simp [createStartHandler, hb, hsvc, hs2]
            · simp [createStartHandler, hb, hsvc]
  · intro σ svc s0 body
    rcases body with ⟨pb, bn⟩
    cases pb with
    | none => simp [createStopHandler, badRequestResp]
    | some pp =>
        by_cases hpp : pp = ""
        · subst hpp
          simp [createStopHandler, badRequestResp]
        · have hb : (pp == "") = false := by simpa using hpp
          rcases hsvc : svc.isAutoLoopRunningForProject s0 pp
              (normalizeBranchName bn) with ⟨e | b, s1⟩
          · simp [createStopHandler, hb, hsvc, errResp]
          · cases b
            · simp [createStopHandler, hb, hsvc]
            · rcases hs2 : svc.stopAutoLoopForProject s1 pp
                  (normalizeBranchName bn) with ⟨e2 | n, s2⟩
              · simp [createStopHandler, hb, hsvc, hs2, errResp]
              · simp [createStopHandler, hb, hsvc, hs2]
  · intro σ svc s0 body
    rcases body with ⟨pb, bn⟩
    cases pb with
    | none => simpa [createStatusHandler] using hglobal σ svc s0
    | some pp =>
        by_cases hpp : pp = ""
        · subst hpp
          simpa [createStatusHandler] using hglobal σ svc s0
        · have hb : (pp == "") = false := by simpa using hpp
          rcases hsvc : svc.getStatusForProject s0 pp
              (normalizeBranchName bn) with ⟨e | st, s1⟩
          · simp [createStatusHandler, hb, hsvc, errResp]
          · simp [createStatusHandler, hb, hsvc]

/-- Witness for C6: a service whose methods all throw produces 500
responses with the thrown message on each route. -/
theorem routes_catch_service_errors_witness :
    (createStartHandler throwingService ⟨some "p", none, none⟩ ()).resp
      = errResp "boom" ∧
    (createStopHandler throwingService ⟨some "p", none⟩ ()).resp
      = errResp "boom" ∧
    (createStatusHandler throwingService ⟨none, none⟩ ()).resp
      = errResp "boom" :=
  ⟨routes_catch_service_errors.1 Unit throwingService () "p" none none
      "boom" () (by decide) rfl,
    routes_catch_service_errors.2.2.1 Unit throwingService () "p" none
      "boom" () (by decide) rfl,
    routes_catch_service_errors.2.2.2.2.2.1 Unit throwingService () none
      "boom" () rfl⟩

/-- C7: a stop request for a key whose auto loop is running gets a 200
response carrying success true, the normalized branch name, and a
runningFeaturesCount equal to the value stopAutoLoopForProject returned
for that key.  This holds for every service instance. -/
theorem stop_running_reports_count (σ : Type) (svc : AutoModeService σ)
    (s0 : σ) (pp : String) (bn : Option (Option String)) (n : Nat) (s1 s2 : σ)
    (hpp : pp ≠ "")
    (h1 : svc.isAutoLoopRunningForProject s0 pp (normalizeBranchName bn)
      = (Except.ok true, s1))
    (h2 : svc.stopAutoLoopForProject s1 pp (normalizeBranchName bn)
      = (Except.ok n, s2)) :
    createStopHandler svc ⟨some pp, bn⟩ s0 =
      ⟨⟨200, [("success", Json.bool true),
          ("message", Json.str "Auto mode stopped"),
          ("runningFeaturesCount", Json.num n),
          ("branchName", jsonOfBranch (normalizeBranchName bn))]⟩,
        [ServiceCall.isAutoLoopRunningForProject pp (normalizeBranchName bn),
          ServiceCall.stopAutoLoopForProject pp (normalizeBranchName bn)],
        s2⟩ := by
  have hb : (pp == "") = false := by simpa using hpp
  simp [createStopHandler, hb, h1, h2]

/-- Witness for C7: stopping the sample registry's running loop reports
the two features still draining. -/
theorem stop_running_reports_count_witness :
    createStopHandler specService ⟨some "p", none⟩ sampleRegistry =
      ⟨⟨200, [("success", Json.bool true),
          ("message", Json.str "Auto mode stopped"),
          ("runningFeaturesCount",
            Json.num (SpecModel.stopFor sampleRegistry "p"
              (normalizeBranchName none)).1),
          ("branchName", jsonOfBranch (normalizeBranchName none))]⟩,
        [ServiceCall.isAutoLoopRunningForProject "p" (normalizeBranchName none),
          ServiceCall.stopAutoLoopForProject "p" (normalizeBranchName none)],
        (SpecModel.stopFor sampleRegistry "p" (normalizeBranchName none)).2⟩ ∧
    (SpecModel.stopFor sampleRegistry "p" (normalizeBranchName none)).1 = 2 :=
  ⟨stop_running_reports_count SvcState specService sampleRegistry "p" none
      (SpecModel.stopFor sampleRegistry "p" (normalizeBranchName none)).1
      sampleRegistry
      (SpecModel.stopFor sampleRegistry "p" (normalizeBranchName none)).2
      (by decide) rfl rfl,
    by decide⟩

/-- C8: the status route's two response shapes.  With a truthy
projectPath the 200 body carries exactly success, isRunning,
isAutoLoopRunning, runningFeatures, runningCount and maxConcurrency
derived from the getStatusForProject record, plus the echoed projectPath
and normalized branchName; with projectPath omitted the 200 body carries
success, the spread fields of getStatus, then activeAutoLoopProjects and
activeAutoLoopWorktrees.  This holds for every service instance. -/
theorem status_response_shape (σ : Type) (svc : AutoModeService σ) (s0 : σ) :
    (∀ (pp : String) (bn : Option (Option String)) (st : ProjectStatus) (s1 : σ),
      pp ≠ "" →
      svc.getStatusForProject s0 pp (normalizeBranchName bn)
        = (Except.ok st, s1) →
      createStatusHandler svc ⟨some pp, bn⟩ s0 =
        ⟨⟨200, [("success", Json.bool true),
            ("isRunning", Json.bool (decide (0 < st.runningCount))),
            ("isAutoLoopRunning", Json.bool st.isAutoLoopRunning),
            ("runningFeatures", Json.arr (st.runningFeatures.map Json.str)),
            ("runningCount", Json.num st.runningCount),
            ("maxConcurrency", Json.num st.maxConcurrency),
            ("projectPath", Json.str pp),
            ("branchName", jsonOfBranch (normalizeBranchName bn))]⟩,
          [ServiceCall.getStatusForProject pp (normalizeBranchName bn)],
          s1⟩) ∧
    (∀ (bn : Option (Option String)) (gs : List (String × Json))
        (aps : List String) (awt : List Json) (s1 s2 s3 : σ),
      svc.getStatus s0 = (Except.ok gs, s1) →
      svc.getActiveAutoLoopProjects s1 = (Except.ok aps, s2) →
      svc.getActiveAutoLoopWorktrees s2 = (Except.ok awt, s3) →
      createStatusHandler svc ⟨none, bn⟩ s0 =
        ⟨⟨200, ("success", Json.bool true) :: gs
            ++ [("activeAutoLoopProjects", Json.arr (aps.map Json.str)),
              ("activeAutoLoopWorktrees", Json.arr awt)]⟩,
          [ServiceCall.getStatus, ServiceCall.getActiveAutoLoopProjects,
            ServiceCall.getActiveAutoLoopWorktrees],
          s3⟩) := by
  constructor
  · intro pp bn st s1 hpp hsvc
    have hb : (pp == "") = false := by simpa using hpp
    simp [createStatusHandler, hb, hsvc]
  · intro bn gs aps awt s1 s2 s3 h1 h2 h3
    simp [createStatusHandler, statusGlobalFrom, h1, h2, h3]

/-- Witness for C8: both status shapes at the sample registry. -/
theorem status_response_shape_witness :
    createStatusHandler specService ⟨some "p", none⟩ sampleRegistry =
      ⟨⟨200, [("success", Json.bool true),
          ("isRunning", Json.bool (decide (0
            < (SpecModel.statusFor sampleRegistry "p"
                (normalizeBranchName none)).runningCount))),
          ("isAutoLoopRunning", Json.bool (SpecModel.statusFor sampleRegistry
            "p" (normalizeBranchName none)).isAutoLoopRunning),
          ("runningFeatures", Json.arr ((SpecModel.statusFor sampleRegistry
            "p" (normalizeBranchName none)).runningFeatures.map Json.str)),
          ("runningCount", Json.num (SpecModel.statusFor sampleRegistry "p"
            (normalizeBranchName none)).runningCount),
          ("maxConcurrency", Json.num (SpecModel.statusFor sampleRegistry "p"
            (normalizeBranchName none)).maxConcurrency),
          ("projectPath", Json.str "p"),
          ("branchName", jsonOfBranch (normalizeBranchName none))]⟩,
        [ServiceCall.getStatusForProject "p" (normalizeBranchName none)],
        sampleRegistry⟩ ∧
    createStatusHandler specService ⟨none, none⟩ sampleRegistry =
      ⟨⟨200, ("success", Json.bool true) :: SpecModel.globalStatus sampleRegistry
          ++ [("activeAutoLoopProjects",
              Json.arr ((SpecModel.activeProjects sampleRegistry).map Json.str)),
            ("activeAutoLoopWorktrees",
              Json.arr (SpecModel.activeWorktrees sampleRegistry))]⟩,
        [ServiceCall.getStatus, ServiceCall.getActiveAutoLoopProjects,
          ServiceCall.getActiveAutoLoopWorktrees],
        sampleRegistry⟩ :=
  ⟨(status_response_shape SvcState specService sampleRegistry).1 "p" none
      (SpecModel.statusFor sampleRegistry "p" (normalizeBranchName none))
      sampleRegistry (by decide) rfl,
    (status_response_shape SvcState specService sampleRegistry).2 none
      (SpecModel.globalStatus sampleRegistry)
      (SpecModel.activeProjects sampleRegistry)
      (SpecModel.activeWorktrees sampleRegistry)
      sampleRegistry sampleRegistry sampleRegistry rfl rfl rfl⟩

/-- A registry whose single loop is stopped but still draining one
feature: isAutoLoopRunning is false while runningCount is positive. -/
def drainingRegistry : SvcState :=
  [(("p", none), ⟨false, 3, ["f1"], true⟩)]

/-- A registry whose single loop is running with nothing dispatched:
isAutoLoopRunning is true while runningCount is zero. -/
def idleRunningRegistry : SvcState :=
  [(("p", none), ⟨true, 3, [], false⟩)]

/-- C9: in every per-project status response the isRunning field equals
the comparison runningCount greater than zero, computed from the
getStatusForProject record independently of isAutoLoopRunning; and the
two fields do come apart in both directions: a draining registry reports
isRunning true with isAutoLoopRunning false, and an idle running
registry reports isRunning false with isAutoLoopRunning true. -/
theorem status_isRunning_from_runningCount :
    (∀ (σ : Type) (svc : AutoModeService σ) (s0 : σ) (pp : String)
        (bn : Option (Option String)) (st : ProjectStatus) (s1 : σ),
      pp ≠ "" →
      svc.getStatusForProject s0 pp (normalizeBranchName bn)
        = (Except.ok st, s1) →
      (createStatusHandler svc ⟨some pp, bn⟩ s0).resp.body.lookup "isRunning"
        = some (Json.bool (decide (0 < st.runningCount)))) ∧
    (createStatusHandler specService ⟨some "p", none⟩
        drainingRegistry).resp.body.lookup "isRunning"
      = some (Json.bool true) ∧
    (createStatusHandler specService ⟨some "p", none⟩
        drainingRegistry).resp.body.lookup "isAutoLoopRunning"
      = some (Json.bool false) ∧
    (createStatusHandler specService ⟨some "p", none⟩
        idleRunningRegistry).resp.body.lookup "isRunning"
      = some (Json.bool false) ∧
    (createStatusHandler specService ⟨some "p", none⟩
        idleRunningRegistry).resp.body.lookup "isAutoLoopRunning"
      = some (Json.bool true) := by
  refine ⟨?_, rfl, rfl, rfl, rfl⟩
  intro σ svc s0 pp bn st s1 hpp hsvc
  have hb : (pp == "") = false := by simpa using hpp
  simp [createStatusHandler, hb, hsvc, List.lookup]

/-- Witness for C9's quantified part at the sample registry. -/
theorem status_isRunning_from_runningCount_witness :
    (createStatusHandler specService ⟨some "p", none⟩
        sampleRegistry).resp.body.lookup "isRunning"
      = some (Json.bool (decide (0 < (SpecModel.statusFor sampleRegistry "p"
          (normalizeBranchName none)).runningCount))) :=
  status_isRunning_from_runningCount.1 SvcState specService sampleRegistry
    "p" none (SpecModel.statusFor sampleRegistry "p" (normalizeBranchName none))
    sampleRegistry (by decide) rfl

/-- C10: a status request whose projectPath is the empty string takes the
global branch: it produces exactly the same result as an omitted
projectPath, is never a 400, and never consults getStatusForProject.
This holds for every service instance. -/
theorem status_empty_projectPath_global (σ : Type) (svc : AutoModeService σ)
    (s0 : σ) (bn : Option (Option String)) :
    createStatusHandler svc ⟨some "", bn⟩ s0
      = createStatusHandler svc ⟨none, bn⟩ s0 ∧
    (createStatusHandler svc ⟨some "", bn⟩ s0).resp.status ≠ 400 ∧
    (∀ (pp : String) (nb : Option String),
      ServiceCall.getStatusForProject pp nb
        ∉ (createStatusHandler svc ⟨some "", bn⟩ s0).calls) := by
  refine ⟨rfl, ?_, ?_⟩
  · rcases h1 : svc.getStatus s0 with ⟨e1 | gs, s1⟩
    · simp [createStatusHandler, statusGlobalFrom, h1, errResp]
    · rcases h2 : svc.getActiveAutoLoopProjects s1 with ⟨e2 | aps, s2⟩
      · simp [createStatusHandler, statusGlobalFrom, h1, h2, errResp]
      · rcases h3 : svc.getActiveAutoLoopWorktrees s2 with ⟨e3 | awt, s3⟩
        · simp [createStatusHandler, statusGlobalFrom, h1, h2, h3, errResp]
        · simp [createStatusHandler, statusGlobalFrom, h1, h2, h3]
  · intro pp nb
    rcases h1 : svc.getStatus s0 with ⟨e1 | gs, s1⟩
    · simp [createStatusHandler, statusGlobalFrom, h1]
    · rcases h2 : svc.getActiveAutoLoopProjects s1 with ⟨e2 | aps, s2⟩
      · simp [createStatusHandler, statusGlobalFrom, h1, h2]
      · rcases h3 : svc.getActiveAutoLoopWorktrees s2 with ⟨e3 | awt, s3⟩
        · simp [createStatusHandler, statusGlobalFrom, h1, h2, h3]
        · simp [createStatusHandler, statusGlobalFrom, h1, h2, h3]

/-- Witness for C10 at the sample registry. -/
theorem status_empty_projectPath_global_witness :
    createStatusHandler specService ⟨some "", none⟩ sampleRegistry
      = createStatusHandler specService ⟨none, none⟩ sampleRegistry ∧
    (createStatusHandler specService ⟨some "", none⟩
        sampleRegistry).resp.status ≠ 400 :=
  ⟨(status_empty_projectPath_global SvcState specService sampleRegistry none).1,
    (status_empty_projectPath_global SvcState specService sampleRegistry none).2.1⟩
